import Mathlib

/-!
# drone-kube: `plugin.go`

A shallow embedding of `Plugin.Exec`, `findDeployment`, `listDeployments`,
`openAndSub` and `Plugin.createKubeClient`.

The Go code is effectful.  It is embedded as state-passing code over an abstract
cluster state `σ`; every call that leaves `plugin.go` (standard library,
Kubernetes client, `RenderTrim`) is recorded, in order, in a trace of `Event`s.
`log.Fatal` ends the run at once: a run's result is either the fatal message or
the value the Go function returns.
-/

namespace DroneKube

/-! ## Data model (`plugin.go`, lines 21-59) -/

/-- Go `error` values; the method `Error()` gives the message. -/
structure GoError where
  Error : String
  deriving DecidableEq, Repr

structure Repo where
  Owner : String
  Name : String
  deriving DecidableEq, Repr

structure Build where
  Tag : String
  Event : String
  Number : Int
  Commit : String
  Ref : String
  Branch : String
  Author : String
  Status : String
  Link : String
  Started : Int
  Created : Int
  deriving DecidableEq, Repr

structure Job where
  Started : Int
  deriving DecidableEq, Repr

structure Config where
  Ca : String
  Server : String
  Token : String
  Namespace : String
  Template : String
  deriving DecidableEq, Repr

structure Plugin where
  Repo : Repo
  Build : Build
  Config : Config
  Job : Job
  deriving DecidableEq, Repr

/-! ## Types of the Kubernetes client the code handles -/

/-- The part of `metav1.ObjectMeta` that `plugin.go` reads. -/
structure ObjectMeta where
  Name : String
  Namespace : String
  deriving DecidableEq, Repr

/-- An `appsv1.Deployment`: its metadata, and everything else of the object
(kind, spec, status) carried along as one payload the code never inspects. -/
structure Deployment where
  ObjectMeta : ObjectMeta
  Rest : String
  deriving DecidableEq, Repr

/-- The Go zero value, `var d appsv1.Deployment`. -/
def Deployment.zero : Deployment := ⟨⟨"", ""⟩, ""⟩

/-- The `clientcmdapi.Config` assembled by `createKubeClient`: one cluster, one
auth-info and one context, all named `drone`, with `drone` the current context. -/
structure ApiConfig where
  Server : String
  CertificateAuthorityData : String
  Token : String
  deriving DecidableEq, Repr

/-- A `rest.Config`, as produced by `clientBuilder.ClientConfig()`. -/
structure RestConfig where
  Host : String
  CAData : String
  BearerToken : String
  deriving DecidableEq, Repr

/-- A `kubernetes.Clientset`, as produced by `kubernetes.NewForConfig`. -/
structure Clientset where
  config : RestConfig
  deriving DecidableEq, Repr

/-! ## Calls leaving `plugin.go` -/

/-- One call out of `plugin.go`, with its arguments. -/
inductive Event where
  | decodeString (s : String)
  | clientConfig (c : ApiConfig)
  | newForConfig (c : RestConfig)
  | readFile (path : String)
  | renderTrim (text : String) (p : Plugin)
  | toJSON (txt : String)
  | decodeInto (json : String)
  | list (ns : String)
  | create (ns : String) (body : Deployment)
  | update (ns : String) (body : Deployment)
  | printf (msg : String)
  deriving DecidableEq, Repr

/-- The results of the calls that do not touch the cluster.  A Go result
`(T, error)` is an `Except GoError T`.  Byte slices are strings.
`renderTrim` is `RenderTrim`, defined in another file of the repository. -/
structure Lib where
  decodeString : String → Except GoError String
  clientConfig : ApiConfig → Except GoError RestConfig
  newForConfig : RestConfig → Except GoError Clientset
  readFile : String → Except GoError String
  renderTrim : String → Plugin → Except GoError String
  toJSON : String → Except GoError String
  decodeInto : String → Except GoError Deployment

/-- The three cluster operations of `clientset.AppsV1().Deployments(namespace)`,
over a cluster state `σ`. -/
structure Api (σ : Type) where
  list : Clientset → String → σ → Except GoError (List Deployment)
  create : Clientset → String → Deployment → σ → Except GoError Deployment × σ
  update : Clientset → String → Deployment → σ → Except GoError Deployment × σ

/-! ## Runs -/

/-- What a piece of code did: the calls it made, the cluster state it left, and
either the message of the `log.Fatal` that ended the process (`.error`) or the
value it returned (`.ok`). -/
structure Run (σ α : Type) where
  trace : List Event
  state : σ
  res : Except String α

/-- Code running against a cluster state. -/
def M (σ α : Type) : Type := σ → Run σ α

/-- Return a value, calling nothing. -/
def M.pure {σ α : Type} (a : α) : M σ α :=
  fun s => ⟨[], s, .ok a⟩

/-- Sequencing: a `log.Fatal` in the first part ends the run. -/
def M.bind {σ α β : Type} (m : M σ α) (f : α → M σ β) : M σ β :=
  fun s =>
    match m s with
    | ⟨t, s1, .error msg⟩ => ⟨t, s1, .error msg⟩
    | ⟨t, s1, .ok a⟩ => ⟨t ++ (f a s1).trace, (f a s1).state, (f a s1).res⟩

instance {σ : Type} : Monad (M σ) where
  pure := M.pure
  bind := M.bind

/-- The function `log.Fatal`: print the message and exit. -/
def logFatal {σ α : Type} (msg : String) : M σ α :=
  fun s => ⟨[], s, .error msg⟩

/-- A call that does not touch the cluster: record it and give its result. -/
def call {σ α : Type} (e : Event) (r : α) : M σ α :=
  fun s => ⟨[e], s, .ok r⟩

/-- A call that reads the cluster. -/
def callRead {σ α : Type} (e : Event) (f : σ → α) : M σ α :=
  fun s => ⟨[e], s, .ok (f s)⟩

/-- A call that may change the cluster. -/
def callWrite {σ α : Type} (e : Event) (f : σ → α × σ) : M σ α :=
  fun s => ⟨[e], (f s).2, .ok (f s).1⟩

/-! ## The code -/

/-- Lines 163-196.  Both base64 decodings return their error; a failing
`ClientConfig()` is fatal; the result of `NewForConfig` is returned as is. -/
def createKubeClient {σ : Type} (L : Lib) (p : Plugin) : M σ (Except GoError Clientset) := do
  match ← call (.decodeString p.Config.Ca) (L.decodeString p.Config.Ca) with
  | .error err => pure (.error err)
  | .ok ca =>
    match ← call (.decodeString p.Config.Token) (L.decodeString p.Config.Token) with
    | .error err => pure (.error err)
    | .ok token =>
      let config : ApiConfig := ⟨p.Config.Server, ca, token⟩
      match ← call (.clientConfig config) (L.clientConfig config) with
      | .error err => logFatal err.Error
      | .ok actualCfg => call (.newForConfig actualCfg) (L.newForConfig actualCfg)

/-- Lines 152-159. -/
def openAndSub {σ : Type} (L : Lib) (templateFile : String) (p : Plugin) :
    M σ (Except GoError String) := do
  match ← call (.readFile templateFile) (L.readFile templateFile) with
  | .error err => pure (.error err)
  | .ok t => call (.renderTrim t p) (L.renderTrim t p)

/-- Lines 143-149: a failing list call is fatal.  (`ns` is the Go parameter
`namespace`, a reserved word here.) -/
def listDeployments {σ : Type} (K : Api σ) (clientset : Clientset) (ns : String) :
    M σ (List Deployment × Option GoError) := do
  match ← callRead (.list ns) (K.list clientset ns) with
  | .error err => logFatal err.Error
  | .ok deployments => pure (deployments, none)

/-- The loop of lines 134-139: the first deployment named `depName`, else `d`. -/
def findDeployment.loop (depName : String) (d : Deployment) : List Deployment → Deployment
  | [] => d
  | thisDep :: rest =>
    if thisDep.ObjectMeta.Name = depName then thisDep else findDeployment.loop depName d rest

/-- Lines 125-140. -/
def findDeployment {σ : Type} (K : Api σ) (depName : String) (ns : String)
    (c : Clientset) : M σ (Deployment × Option GoError) := do
  let ns := if ns = "" then "default" else ns
  let d : Deployment := Deployment.zero
  let (deployments, err) ← listDeployments K c ns
  match err with
  | some e => pure (d, some e)
  | none => pure (findDeployment.loop depName d deployments, none)

/-- Lines 61-123.  The value returned is the Go `error` (`none` is `nil`). -/
def Exec {σ : Type} (L : Lib) (K : Api σ) (p : Plugin) : M σ (Option GoError) :=
  if p.Config.Server = "" then logFatal "KUBE_SERVER is not defined" else
  if p.Config.Token = "" then logFatal "KUBE_TOKEN is not defined" else
  if p.Config.Ca = "" then logFatal "KUBE_CA is not defined" else
  let p : Plugin :=
    if p.Config.Namespace = "" then { p with Config := { p.Config with Namespace := "default" } }
    else p
  if p.Config.Template = "" then logFatal "KUBE_TEMPLATE, or template must be defined" else do
  match ← createKubeClient L p with
  | .error err => logFatal err.Error
  | .ok clientset =>
    match ← openAndSub L p.Config.Template p with
    | .error err => pure (some err)
    | .ok txt =>
      match ← call (.toJSON txt) (L.toJSON txt) with
      | .error err => pure (some err)
      | .ok json =>
        match ← call (.decodeInto json) (L.decodeInto json) with
        | .error e => logFatal ("Error decoding yaml file to json" ++ e.Error)
        | .ok dep =>
          let (oldDep, err) ← findDeployment K dep.ObjectMeta.Name dep.ObjectMeta.Namespace clientset
          match err with
          | some e => pure (some e)
          | none =>
            if oldDep.ObjectMeta.Name = dep.ObjectMeta.Name then
              match ← callWrite (.update dep.ObjectMeta.Namespace dep)
                  (K.update clientset dep.ObjectMeta.Namespace dep) with
              | .error err => pure (some err)
              | .ok _ =>
                call (.printf ("Updated deployment " ++ oldDep.ObjectMeta.Name)) ()
                pure none
            else
              match ← callWrite (.create dep.ObjectMeta.Namespace dep)
                  (K.create clientset dep.ObjectMeta.Namespace dep) with
              | .error err => pure (some err)
              | .ok _ =>
                call (.printf ("Updated deployment " ++ dep.ObjectMeta.Name)) ()
                pure none


/-! ## Vocabulary of the statements -/

/-- Whether the event is a call to the cluster: list, create or update. -/
def Event.isClusterCall : Event → Bool
  | .list _ => true
  | .create _ _ => true
  | .update _ _ => true
  | _ => false

/-- The namespace `ns`, with `default` in place of the empty one: what lines 72-74
leave in `Config.Namespace`, and what `findDeployment` queries (lines 126-128). -/
def defaultNamespace (ns : String) : String :=
  if ns = "" then "default" else ns

/-- Every stage of `Exec` before the lookup succeeds on `p`: the four required
settings are present, the client `cs` is built, the template file is read and
rendered, and the rendered manifest decodes to `dep`. -/
def DecodesTo (L : Lib) (p : Plugin) (cs : Clientset) (dep : Deployment) : Prop :=
  p.Config.Server ≠ "" ∧ p.Config.Token ≠ "" ∧ p.Config.Ca ≠ "" ∧ p.Config.Template ≠ "" ∧
  ∃ ca token cfg t txt json,
    L.decodeString p.Config.Ca = .ok ca ∧
    L.decodeString p.Config.Token = .ok token ∧
    L.clientConfig ⟨p.Config.Server, ca, token⟩ = .ok cfg ∧
    L.newForConfig cfg = .ok cs ∧
    L.readFile p.Config.Template = .ok t ∧
    L.renderTrim t
        { p with Config := { p.Config with Namespace := defaultNamespace p.Config.Namespace } }
      = .ok txt ∧
    L.toJSON txt = .ok json ∧
    L.decodeInto json = .ok dep

/-- The run passes the validation at the start of `Exec`: it goes on to
`createKubeClient`, whose first act is the base64 decoding of `Ca`. -/
def PassesValidation {σ : Type} (L : Lib) (K : Api σ) (p : Plugin) (s : σ) : Prop :=
  ∃ rest, (Exec L K p s).trace = Event.decodeString p.Config.Ca :: rest

/-! ## Concrete collaborators, for evaluating the code -/

/-- A library in which every call succeeds: base64 decoding, the template and
the YAML conversion give their input back, and the manifest decodes to `dep`. -/
def okLib (dep : Deployment) : Lib where
  decodeString s := .ok s
  clientConfig c := .ok ⟨c.Server, c.CertificateAuthorityData, c.Token⟩
  newForConfig c := .ok ⟨c⟩
  readFile path := .ok path
  renderTrim t _ := .ok t
  toJSON txt := .ok txt
  decodeInto _ := .ok dep

/-- The library `okLib`, except that base64 decoding rejects the string `bad`,
with the error `base64.StdEncoding.DecodeString` gives for an illegal first
byte.  It is used with `bad = "!!!"`, which is not standard base64. -/
def base64Lib (dep : Deployment) (bad : String) : Lib :=
  { okLib dep with
    decodeString := fun s =>
      if s = bad then .error ⟨"illegal base64 data at input byte 0"⟩ else .ok s }

/-- A cluster: the deployments of each namespace. -/
abbrev Cluster : Type := String → List Deployment

/-- The empty cluster. -/
def Cluster.empty : Cluster := fun _ => []

/-- The cluster operations on a `Cluster`.  List gives the deployments of the
namespace.  Create and update are refused by the client, before any request,
when they are called with the empty namespace, and then leave the cluster as it
is.  Otherwise create adds the deployment to the namespace it is called with,
and update replaces the deployment of the same name in the namespace it is
called with (an error when there is none). -/
def clusterApi : Api Cluster where
  list _ ns c := .ok (c ns)
  create _ ns dep c :=
    if ns = "" then (.error ⟨"an empty namespace may not be set during creation"⟩, c)
    else (.ok dep, fun n => if n = ns then c n ++ [dep] else c n)
  update _ ns dep c :=
    if ns = "" then
      (.error ⟨"an empty namespace may not be set when a resource name is provided"⟩, c)
    else if (c ns).any (fun d => d.ObjectMeta.Name = dep.ObjectMeta.Name) then
      (.ok dep, fun n =>
        if n = ns then
          (c n).map (fun d => if d.ObjectMeta.Name = dep.ObjectMeta.Name then dep else d)
        else c n)
    else (.error ⟨"not found"⟩, c)

/-- Cluster operations that all fail with `e`. -/
def failingApi (e : GoError) : Api Cluster where
  list _ _ _ := .error e
  create _ _ _ c := (.error e, c)
  update _ _ _ c := (.error e, c)

/-- A plugin with every required setting present and no namespace. -/
def demoPlugin : Plugin where
  Repo := ⟨"combor", "drone-kube"⟩
  Build := ⟨"", "push", 7, "abc", "refs/heads/master", "master", "dev", "success", "", 0, 0⟩
  Config := ⟨"Y2E=", "https://kube", "dG9r", "", "deploy.yaml"⟩
  Job := ⟨0⟩


/-- The demo plugin with a `Ca` that is not standard base64. -/
def badCaPlugin : Plugin :=
  { demoPlugin with Config := { demoPlugin.Config with Ca := "!!!" } }

/-- The demo plugin with a `Token` that is not standard base64. -/
def badTokenPlugin : Plugin :=
  { demoPlugin with Config := { demoPlugin.Config with Token := "!!!" } }

/-! ## The lookup loop -/

/-- The loop returns a deployment of the requested name exactly when one is listed
or the fallback `d` itself has that name. -/
theorem loop_name_eq (depName : String) (d : Deployment) (l : List Deployment) :
    (findDeployment.loop depName d l).ObjectMeta.Name = depName ↔
      (∃ x ∈ l, x.ObjectMeta.Name = depName) ∨ d.ObjectMeta.Name = depName := by
  induction l with
  | nil => simp [findDeployment.loop]
  | cons x xs ih =>
    by_cases hx : x.ObjectMeta.Name = depName
    · simp [findDeployment.loop, hx]
    · simp [findDeployment.loop, hx, ih]

/-- The loop returns the first listed deployment of the requested name, or the
fallback `d` when none is listed. -/
theorem loop_first (depName : String) (d : Deployment) (l : List Deployment) :
    (∃ pre x post, l = pre ++ x :: post ∧ x.ObjectMeta.Name = depName ∧
        (∀ y ∈ pre, y.ObjectMeta.Name ≠ depName) ∧ findDeployment.loop depName d l = x) ∨
      ((∀ y ∈ l, y.ObjectMeta.Name ≠ depName) ∧ findDeployment.loop depName d l = d) := by
  induction l with
  | nil => right; simp [findDeployment.loop]
  | cons x xs ih =>
    by_cases hx : x.ObjectMeta.Name = depName
    · left
      exact ⟨[], x, xs, by simp, hx, by simp, by simp [findDeployment.loop, hx]⟩
    · rcases ih with ⟨pre, y, post, hl, hy, hpre, hres⟩ | ⟨hall, hres⟩
      · left
        refine ⟨x :: pre, y, post, by simp [hl], hy, ?_, by simp [findDeployment.loop, hx, hres]⟩
        intro z hz
        rcases List.mem_cons.mp hz with rfl | hz
        · exact hx
        · exact hpre z hz
      · right
        refine ⟨?_, by simp [findDeployment.loop, hx, hres]⟩
        intro z hz
        rcases List.mem_cons.mp hz with rfl | hz
        · exact hx
        · exact hall z hz

/-! ## The namespace default of lines 72-74 -/

/-- The plugin after lines 72-74 is the input with its namespace defaulted. -/
theorem defaulted_eq (p : Plugin) :
    (if p.Config.Namespace = "" then
        ({ p with Config := { p.Config with Namespace := "default" } } : Plugin)
      else p) =
      { p with Config := { p.Config with Namespace := defaultNamespace p.Config.Namespace } } := by
  by_cases hns : p.Config.Namespace = "" <;> simp [hns, defaultNamespace]

/-! ## What `Exec` does once the manifest is decoded -/

/-- The run of `Exec` from a decoded manifest: some calls that touch neither the
cluster nor the log, then the list call in the lookup namespace, then the update
or the create call in the namespace of the manifest, then the log line. -/
theorem Exec_of_decodesTo {σ : Type} (L : Lib) (p : Plugin) (cs : Clientset)
    (dep : Deployment) (h : DecodesTo L p cs dep) :
    ∃ pre : List Event, (∀ e ∈ pre, e.isClusterCall = false ∧ ∀ m, e ≠ .printf m) ∧
      (∃ rest, pre = .decodeString p.Config.Ca :: rest) ∧
      (∀ t q, .renderTrim t q ∈ pre → q =
        { p with Config := { p.Config with Namespace := defaultNamespace p.Config.Namespace } }) ∧
      ∀ (K : Api σ) (s : σ),
        (∀ e, K.list cs (defaultNamespace dep.ObjectMeta.Namespace) s = .error e →
          Exec L K p s =
            ⟨pre ++ [.list (defaultNamespace dep.ObjectMeta.Namespace)], s, .error e.Error⟩) ∧
        (∀ l, K.list cs (defaultNamespace dep.ObjectMeta.Namespace) s = .ok l →
          ((findDeployment.loop dep.ObjectMeta.Name Deployment.zero l).ObjectMeta.Name
              = dep.ObjectMeta.Name →
            (∀ e, (K.update cs dep.ObjectMeta.Namespace dep s).1 = .error e →
              Exec L K p s =
                ⟨pre ++ [.list (defaultNamespace dep.ObjectMeta.Namespace),
                    .update dep.ObjectMeta.Namespace dep],
                  (K.update cs dep.ObjectMeta.Namespace dep s).2, .ok (some e)⟩) ∧
            (∀ r, (K.update cs dep.ObjectMeta.Namespace dep s).1 = .ok r →
              Exec L K p s =
                ⟨pre ++ [.list (defaultNamespace dep.ObjectMeta.Namespace),
                    .update dep.ObjectMeta.Namespace dep,
                    .printf ("Updated deployment " ++ dep.ObjectMeta.Name)],
                  (K.update cs dep.ObjectMeta.Namespace dep s).2, .ok none⟩)) ∧
          ((findDeployment.loop dep.ObjectMeta.Name Deployment.zero l).ObjectMeta.Name
              ≠ dep.ObjectMeta.Name →
            (∀ e, (K.create cs dep.ObjectMeta.Namespace dep s).1 = .error e →
              Exec L K p s =
                ⟨pre ++ [.list (defaultNamespace dep.ObjectMeta.Namespace),
                    .create dep.ObjectMeta.Namespace dep],
                  (K.create cs dep.ObjectMeta.Namespace dep s).2, .ok (some e)⟩) ∧
            (∀ r, (K.create cs dep.ObjectMeta.Namespace dep s).1 = .ok r →
              Exec L K p s =
                ⟨pre ++ [.list (defaultNamespace dep.ObjectMeta.Namespace),
                    .create dep.ObjectMeta.Namespace dep,
                    .printf ("Updated deployment " ++ dep.ObjectMeta.Name)],
                  (K.create cs dep.ObjectMeta.Namespace dep s).2, .ok none⟩))) := by
  obtain ⟨hS, hT, hC, hTp, ca, token, cfg, t, txt, json, h1, h2, h3, h4, h5, h6, h7, h8⟩ := h
  refine ⟨[.decodeString p.Config.Ca, .decodeString p.Config.Token,
    .clientConfig ⟨p.Config.Server, ca, token⟩, .newForConfig cfg,
    .readFile p.Config.Template,
    .renderTrim t
      { p with Config := { p.Config with Namespace := defaultNamespace p.Config.Namespace } },
    .toJSON txt, .decodeInto json], ?_, ⟨_, rfl⟩, ?_, ?_⟩
  · intro e he
    simp at he
    rcases he with rfl | rfl | rfl | rfl | rfl | rfl | rfl | rfl <;> simp [Event.isClusterCall]
  · intro t' q hq
    simp at hq
    exact hq.2
  · intro K s
    dsimp only at h6
    refine ⟨?_, ?_⟩
    · intro e he
      simp [Exec, createKubeClient, openAndSub, findDeployment, listDeployments, bind, M.bind,
        pure, M.pure, call, callRead, callWrite, logFatal, defaulted_eq, hS, hT, hC, hTp,
        h1, h2, h3, h4, h5, h6, h7, h8, he, ← defaultNamespace.eq_1]
    · intro l hl
      refine ⟨fun hname => ⟨fun e hk => ?_, fun r hk => ?_⟩,
        fun hname => ⟨fun e hk => ?_, fun r hk => ?_⟩⟩
      all_goals
        simp [Exec, createKubeClient, openAndSub, findDeployment, listDeployments, bind, M.bind,
          pure, M.pure, call, callRead, callWrite, logFatal, defaulted_eq, hS, hT, hC, hTp,
          h1, h2, h3, h4, h5, h6, h7, h8, hl, hname, hk, ← defaultNamespace.eq_1]

/-- Calls before the lookup contribute nothing to the cluster calls of a run. -/
theorem filter_clusterCall_append (pre xs : List Event)
    (h : ∀ e ∈ pre, e.isClusterCall = false ∧ ∀ m, e ≠ Event.printf m) :
    (pre ++ xs).filter Event.isClusterCall = xs.filter Event.isClusterCall := by
  have hpre : pre.filter Event.isClusterCall = [] := by
    rw [List.filter_eq_nil_iff]
    intro e he
    simp [(h e he).1]
  simp [List.filter_append, hpre]

/-- The cluster calls of a run from a decoded manifest, in order: the list call
in the lookup namespace, then one call in the namespace of the manifest, which
is the update when a listed deployment has the desired name or that name is
empty, and the create otherwise. -/
theorem clusterCalls_of_decodesTo {σ : Type} (L : Lib) (K : Api σ) (p : Plugin)
    (cs : Clientset) (dep : Deployment) (s : σ) (l : List Deployment)
    (hdec : DecodesTo L p cs dep)
    (hlist : K.list cs (defaultNamespace dep.ObjectMeta.Namespace) s = .ok l) :
    (Exec L K p s).trace.filter Event.isClusterCall =
      [.list (defaultNamespace dep.ObjectMeta.Namespace),
        if (∃ d ∈ l, d.ObjectMeta.Name = dep.ObjectMeta.Name) ∨ dep.ObjectMeta.Name = "" then
          .update dep.ObjectMeta.Namespace dep
        else .create dep.ObjectMeta.Namespace dep] := by
  obtain ⟨pre, hpre, -, -, hrun⟩ := Exec_of_decodesTo (σ := σ) L p cs dep hdec
  obtain ⟨-, hok⟩ := hrun K s
  obtain ⟨hupd, hcre⟩ := hok l hlist
  have hiff := loop_name_eq dep.ObjectMeta.Name Deployment.zero l
  have hz : Deployment.zero.ObjectMeta.Name = dep.ObjectMeta.Name ↔ dep.ObjectMeta.Name = "" := by
    simp [Deployment.zero, eq_comm]
  rw [hz] at hiff
  by_cases hn : (findDeployment.loop dep.ObjectMeta.Name Deployment.zero l).ObjectMeta.Name
      = dep.ObjectMeta.Name
  · have hc := hiff.mp hn
    rw [if_pos hc]
    cases hu : (K.update cs dep.ObjectMeta.Namespace dep s).1 with
    | error e =>
      rw [(hupd hn).1 e hu, filter_clusterCall_append _ _ hpre]
      simp [Event.isClusterCall]
    | ok r =>
      rw [(hupd hn).2 r hu, filter_clusterCall_append _ _ hpre]
      simp [Event.isClusterCall]
  · have hc := fun h => hn (hiff.mpr h)
    rw [if_neg hc]
    cases hu : (K.create cs dep.ObjectMeta.Namespace dep s).1 with
    | error e =>
      rw [(hcre hn).1 e hu, filter_clusterCall_append _ _ hpre]
      simp [Event.isClusterCall]
    | ok r =>
      rw [(hcre hn).2 r hu, filter_clusterCall_append _ _ hpre]
      simp [Event.isClusterCall]

/-- The run of `Exec` when the settings are present and some stage before the
lookup fails: it starts with the base64 decoding of `Ca`, calls neither the
cluster nor the log, renders with the defaulted plugin only, leaves the cluster
as it was, and does not succeed. -/
theorem Exec_of_not_decodesTo {σ : Type} (L : Lib) (K : Api σ) (p : Plugin) (s : σ)
    (hS : p.Config.Server ≠ "") (hT : p.Config.Token ≠ "") (hC : p.Config.Ca ≠ "")
    (hTp : p.Config.Template ≠ "") (hno : ¬ ∃ cs dep, DecodesTo L p cs dep) :
    ∃ tr r, Exec L K p s = ⟨.decodeString p.Config.Ca :: tr, s, r⟩ ∧
      (∀ e ∈ tr, e.isClusterCall = false ∧ ∀ m, e ≠ Event.printf m) ∧
      (∀ t q, Event.renderTrim t q ∈ tr → q =
        { p with Config := { p.Config with Namespace := defaultNamespace p.Config.Namespace } }) ∧
      r ≠ .ok none := by
  cases h1 : L.decodeString p.Config.Ca with
  | error e =>
    refine ⟨[], .error e.Error, ?_, by simp, by simp, by simp⟩
    simp [Exec, createKubeClient, bind, M.bind, pure, M.pure, call, logFatal, defaulted_eq, *]
  | ok ca =>
    cases h2 : L.decodeString p.Config.Token with
    | error e =>
      refine ⟨[.decodeString p.Config.Token], .error e.Error, ?_, by simp [Event.isClusterCall],
        by simp, by simp⟩
      simp [Exec, createKubeClient, bind, M.bind, pure, M.pure, call, logFatal, defaulted_eq, *]
    | ok token =>
      cases h3 : L.clientConfig ⟨p.Config.Server, ca, token⟩ with
      | error e =>
        refine ⟨[.decodeString p.Config.Token, .clientConfig ⟨p.Config.Server, ca, token⟩],
          .error e.Error, ?_, by simp [Event.isClusterCall], by simp, by simp⟩
        simp [Exec, createKubeClient, bind, M.bind, pure, M.pure, call, logFatal, defaulted_eq, *]
      | ok cfg =>
        cases h4 : L.newForConfig cfg with
        | error e =>
          refine ⟨[.decodeString p.Config.Token, .clientConfig ⟨p.Config.Server, ca, token⟩,
            .newForConfig cfg], .error e.Error, ?_, by simp [Event.isClusterCall], by simp,
            by simp⟩
          simp [Exec, createKubeClient, bind, M.bind, pure, M.pure, call, logFatal,
            defaulted_eq, *]
        | ok cs =>
          cases h5 : L.readFile p.Config.Template with
          | error e =>
            refine ⟨[.decodeString p.Config.Token, .clientConfig ⟨p.Config.Server, ca, token⟩,
              .newForConfig cfg, .readFile p.Config.Template], .ok (some e), ?_,
              by simp [Event.isClusterCall], by simp, by simp⟩
            simp [Exec, createKubeClient, openAndSub, bind, M.bind, pure, M.pure, call, logFatal,
              defaulted_eq, *]
          | ok t =>
            cases h6 : L.renderTrim t { p with Config := { p.Config with
                Namespace := defaultNamespace p.Config.Namespace } } with
            | error e =>
              refine ⟨[.decodeString p.Config.Token,
                .clientConfig ⟨p.Config.Server, ca, token⟩, .newForConfig cfg,
                .readFile p.Config.Template,
                .renderTrim t { p with Config := { p.Config with
                  Namespace := defaultNamespace p.Config.Namespace } }], .ok (some e), ?_,
                by simp [Event.isClusterCall], by simp, by simp⟩
              dsimp only at h6
              simp [Exec, createKubeClient, openAndSub, bind, M.bind, pure, M.pure, call,
                logFatal, defaulted_eq, *]
            | ok txt =>
              cases h7 : L.toJSON txt with
              | error e =>
                refine ⟨[.decodeString p.Config.Token,
                  .clientConfig ⟨p.Config.Server, ca, token⟩, .newForConfig cfg,
                  .readFile p.Config.Template,
                  .renderTrim t { p with Config := { p.Config with
                    Namespace := defaultNamespace p.Config.Namespace } }, .toJSON txt],
                  .ok (some e), ?_, by simp [Event.isClusterCall], by simp, by simp⟩
                dsimp only at h6
                simp [Exec, createKubeClient, openAndSub, bind, M.bind, pure, M.pure, call,
                  logFatal, defaulted_eq, *]
              | ok json =>
                cases h8 : L.decodeInto json with
                | error e =>
                  refine ⟨[.decodeString p.Config.Token,
                    .clientConfig ⟨p.Config.Server, ca, token⟩, .newForConfig cfg,
                    .readFile p.Config.Template,
                    .renderTrim t { p with Config := { p.Config with
                      Namespace := defaultNamespace p.Config.Namespace } }, .toJSON txt,
                    .decodeInto json],
                    .error ("Error decoding yaml file to json" ++ e.Error), ?_,
                    by simp [Event.isClusterCall], by simp, by simp⟩
                  dsimp only at h6
                  simp [Exec, createKubeClient, openAndSub, bind, M.bind, pure, M.pure, call,
                    logFatal, defaulted_eq, *]
                | ok dep =>
                  exact absurd ⟨cs, dep, hS, hT, hC, hTp, ca, token, cfg, t, txt, json,
                    h1, h2, h3, h4, h5, h6, h7, h8⟩ hno

/-- The runs that make the list call of the lookup are exactly the runs from a
decoded manifest. -/
theorem list_called_iff_decodesTo {σ : Type} (L : Lib) (K : Api σ) (p : Plugin) (s : σ) :
    (∃ ns, Event.list ns ∈ (Exec L K p s).trace) ↔ ∃ cs dep, DecodesTo L p cs dep := by
  constructor
  · rintro ⟨ns, hmem⟩
    by_contra hno
    by_cases hS : p.Config.Server = ""
    · simp [Exec, logFatal, hS] at hmem
    by_cases hT : p.Config.Token = ""
    · simp [Exec, logFatal, hS, hT] at hmem
    by_cases hC : p.Config.Ca = ""
    · simp [Exec, logFatal, hS, hT, hC] at hmem
    by_cases hTp : p.Config.Template = ""
    · by_cases hns : p.Config.Namespace = "" <;>
        simp [Exec, logFatal, hS, hT, hC, hTp, hns] at hmem
    obtain ⟨tr, r, hrun, htr, -, -⟩ := Exec_of_not_decodesTo L K p s hS hT hC hTp hno
    rw [hrun] at hmem
    rcases List.mem_cons.mp hmem with h | h
    · simp at h
    · simpa [Event.isClusterCall] using (htr _ h).1
  · rintro ⟨cs, dep, hdec⟩
    refine ⟨defaultNamespace dep.ObjectMeta.Namespace, ?_⟩
    obtain ⟨pre, -, -, -, hrun⟩ := Exec_of_decodesTo (σ := σ) L p cs dep hdec
    obtain ⟨herr, hok⟩ := hrun K s
    cases hl : K.list cs (defaultNamespace dep.ObjectMeta.Namespace) s with
    | error e =>
      rw [herr e hl]
      simp
    | ok l =>
      obtain ⟨hupd, hcre⟩ := hok l hl
      by_cases hn : (findDeployment.loop dep.ObjectMeta.Name Deployment.zero l).ObjectMeta.Name
          = dep.ObjectMeta.Name
      · cases hu : (K.update cs dep.ObjectMeta.Namespace dep s).1 with
        | error e =>
          rw [(hupd hn).1 e hu]
          simp
        | ok r =>
          rw [(hupd hn).2 r hu]
          simp
      · cases hu : (K.create cs dep.ObjectMeta.Namespace dep s).1 with
        | error e =>
          rw [(hcre hn).1 e hu]
          simp
        | ok r =>
          rw [(hcre hn).2 r hu]
          simp

/-! ## C1 -/

/-- C1, at a manifest that decodes to a deployment without a name, in namespace
`prod`, on an empty cluster: the list of `prod` is empty, so no listed deployment
has the desired name, and the cluster calls of `Exec` are the list call followed
by the update call; no create call is made. -/
theorem exec_nameless_updates_on_empty_list :
    clusterApi.list ⟨⟨"https://kube", "Y2E=", "dG9r"⟩⟩ "prod" Cluster.empty = .ok [] ∧
      (Exec (okLib ⟨⟨"", "prod"⟩, "spec"⟩) clusterApi demoPlugin Cluster.empty).trace.filter
          Event.isClusterCall
        = [.list "prod", .update "prod" ⟨⟨"", "prod"⟩, "spec"⟩] := by
  constructor
  · rfl
  · decide

/-- Where the rule of C1 does hold: for a decoded desired deployment with a
non-empty name and a list `l` returned for its lookup namespace, the cluster calls of `Exec` are the
list call followed by exactly one call: the update when some listed deployment
has the desired name, the create when none has; the body passed is the decoded
deployment itself. -/
theorem exec_update_iff_listed {σ : Type} (L : Lib) (K : Api σ) (p : Plugin)
    (cs : Clientset) (dep : Deployment) (s : σ) (l : List Deployment)
    (hname : dep.ObjectMeta.Name ≠ "")
    (hdec : DecodesTo L p cs dep)
    (hlist : K.list cs (defaultNamespace dep.ObjectMeta.Namespace) s = .ok l) :
    ((∃ d ∈ l, d.ObjectMeta.Name = dep.ObjectMeta.Name) →
        (Exec L K p s).trace.filter Event.isClusterCall =
          [.list (defaultNamespace dep.ObjectMeta.Namespace),
            .update dep.ObjectMeta.Namespace dep]) ∧
      ((¬ ∃ d ∈ l, d.ObjectMeta.Name = dep.ObjectMeta.Name) →
        (Exec L K p s).trace.filter Event.isClusterCall =
          [.list (defaultNamespace dep.ObjectMeta.Namespace),
            .create dep.ObjectMeta.Namespace dep]) := by
  have h := clusterCalls_of_decodesTo L K p cs dep s l hdec hlist
  constructor
  · intro hex
    rw [h, if_pos (Or.inl hex)]
  · intro hex
    rw [h, if_neg (by simp only [not_or]; exact ⟨hex, hname⟩)]

/-- With the library `okLib dep`, the demo plugin gets to the lookup with `dep`. -/
theorem decodesTo_okLib (dep : Deployment) :
    DecodesTo (okLib dep) demoPlugin ⟨⟨"https://kube", "Y2E=", "dG9r"⟩⟩ dep :=
  ⟨by decide, by decide, by decide, by decide,
    "Y2E=", "dG9r", ⟨"https://kube", "Y2E=", "dG9r"⟩, "deploy.yaml", "deploy.yaml",
    "deploy.yaml", rfl, rfl, rfl, rfl, rfl, rfl, rfl, rfl⟩

/-- The rule of C1 at a concrete run: deployment `app-1` in `prod`, against a
cluster that already lists `app-1` (with an older payload) in `prod`. -/
theorem exec_update_iff_listed_witness :
    (∃ d ∈ [(⟨⟨"app-1", "prod"⟩, "old"⟩ : Deployment)], d.ObjectMeta.Name = "app-1") ∧
      (Exec (okLib ⟨⟨"app-1", "prod"⟩, "spec"⟩) clusterApi demoPlugin
          (fun _ => [⟨⟨"app-1", "prod"⟩, "old"⟩])).trace.filter Event.isClusterCall
        = [.list "prod", .update "prod" ⟨⟨"app-1", "prod"⟩, "spec"⟩] :=
  ⟨⟨_, List.mem_singleton.mpr rfl, rfl⟩,
    (exec_update_iff_listed (okLib ⟨⟨"app-1", "prod"⟩, "spec"⟩) clusterApi demoPlugin
      ⟨⟨"https://kube", "Y2E=", "dG9r"⟩⟩ ⟨⟨"app-1", "prod"⟩, "spec"⟩
      (fun _ => [⟨⟨"app-1", "prod"⟩, "old"⟩]) [⟨⟨"app-1", "prod"⟩, "old"⟩]
      (by decide) (decodesTo_okLib _) rfl).1 ⟨_, List.mem_singleton.mpr rfl, rfl⟩⟩

/-! ## C2 -/

/-- C2, at a run that takes the create branch (deployment `app-1` in `prod`, on
an empty cluster): the run succeeds after the list and the create call, and the
message it logs is `Updated deployment app-1`, the message of the update branch. -/
theorem exec_create_logs_updated :
    (Exec (okLib ⟨⟨"app-1", "prod"⟩, "spec"⟩) clusterApi demoPlugin Cluster.empty).trace.filter
        Event.isClusterCall
      = [.list "prod", .create "prod" ⟨⟨"app-1", "prod"⟩, "spec"⟩] ∧
    (Exec (okLib ⟨⟨"app-1", "prod"⟩, "spec"⟩) clusterApi demoPlugin Cluster.empty).res
      = .ok none ∧
    (Exec (okLib ⟨⟨"app-1", "prod"⟩, "spec"⟩) clusterApi demoPlugin Cluster.empty).trace.getLast?
      = some (.printf "Updated deployment app-1") := by
  refine ⟨by decide, rfl, by decide⟩

/-! ## C3 -/

/-- C3: the validation at the start of `Exec` passes exactly when `Server`,
`Token`, `Ca` and `Template` are all non-empty; otherwise the run ends in
`log.Fatal` with the message of the first empty setting in the order `Server`,
`Token`, `Ca`, `Template`, having made no call at all and left the cluster as it
was. -/
theorem exec_validation {σ : Type} (L : Lib) (K : Api σ) (p : Plugin) (s : σ) :
    (PassesValidation L K p s ↔
      p.Config.Server ≠ "" ∧ p.Config.Token ≠ "" ∧ p.Config.Ca ≠ "" ∧
        p.Config.Template ≠ "") ∧
    (p.Config.Server = "" →
      Exec L K p s = ⟨[], s, .error "KUBE_SERVER is not defined"⟩) ∧
    (p.Config.Server ≠ "" → p.Config.Token = "" →
      Exec L K p s = ⟨[], s, .error "KUBE_TOKEN is not defined"⟩) ∧
    (p.Config.Server ≠ "" → p.Config.Token ≠ "" → p.Config.Ca = "" →
      Exec L K p s = ⟨[], s, .error "KUBE_CA is not defined"⟩) ∧
    (p.Config.Server ≠ "" → p.Config.Token ≠ "" → p.Config.Ca ≠ "" →
      p.Config.Template = "" →
      Exec L K p s = ⟨[], s, .error "KUBE_TEMPLATE, or template must be defined"⟩) := by
  have e1 : p.Config.Server = "" →
      Exec L K p s = ⟨[], s, .error "KUBE_SERVER is not defined"⟩ := by
    intro h
    simp [Exec, logFatal, h]
  have e2 : p.Config.Server ≠ "" → p.Config.Token = "" →
      Exec L K p s = ⟨[], s, .error "KUBE_TOKEN is not defined"⟩ := by
    intro h ht
    simp [Exec, logFatal, h, ht]
  have e3 : p.Config.Server ≠ "" → p.Config.Token ≠ "" → p.Config.Ca = "" →
      Exec L K p s = ⟨[], s, .error "KUBE_CA is not defined"⟩ := by
    intro h ht hc
    simp [Exec, logFatal, h, ht, hc]
  have e4 : p.Config.Server ≠ "" → p.Config.Token ≠ "" → p.Config.Ca ≠ "" →
      p.Config.Template = "" →
      Exec L K p s = ⟨[], s, .error "KUBE_TEMPLATE, or template must be defined"⟩ := by
    intro h ht hc htp
    by_cases hns : p.Config.Namespace = "" <;> simp [Exec, logFatal, h, ht, hc, htp, hns]
  refine ⟨⟨?_, ?_⟩, e1, e2, e3, e4⟩
  · rintro ⟨rest, hrest⟩
    by_cases hS : p.Config.Server = ""
    · rw [e1 hS] at hrest
      simp at hrest
    by_cases hT : p.Config.Token = ""
    · rw [e2 hS hT] at hrest
      simp at hrest
    by_cases hC : p.Config.Ca = ""
    · rw [e3 hS hT hC] at hrest
      simp at hrest
    by_cases hTp : p.Config.Template = ""
    · rw [e4 hS hT hC hTp] at hrest
      simp at hrest
    exact ⟨hS, hT, hC, hTp⟩
  · rintro ⟨hS, hT, hC, hTp⟩
    by_cases hdec : ∃ cs dep, DecodesTo L p cs dep
    · obtain ⟨cs, dep, hdec⟩ := hdec
      obtain ⟨pre, -, ⟨rest, rfl⟩, -, hrun⟩ := Exec_of_decodesTo (σ := σ) L p cs dep hdec
      obtain ⟨herr, hok⟩ := hrun K s
      cases hl : K.list cs (defaultNamespace dep.ObjectMeta.Namespace) s with
      | error e => exact ⟨_, by rw [herr e hl]; rfl⟩
      | ok l =>
        obtain ⟨hupd, hcre⟩ := hok l hl
        by_cases hn : (findDeployment.loop dep.ObjectMeta.Name Deployment.zero l).ObjectMeta.Name
            = dep.ObjectMeta.Name
        · cases hu : (K.update cs dep.ObjectMeta.Namespace dep s).1 with
          | error e => exact ⟨_, by rw [(hupd hn).1 e hu]; rfl⟩
          | ok r => exact ⟨_, by rw [(hupd hn).2 r hu]; rfl⟩
        · cases hu : (K.create cs dep.ObjectMeta.Namespace dep s).1 with
          | error e => exact ⟨_, by rw [(hcre hn).1 e hu]; rfl⟩
          | ok r => exact ⟨_, by rw [(hcre hn).2 r hu]; rfl⟩
    · obtain ⟨tr, r, hrun, -⟩ := Exec_of_not_decodesTo L K p s hS hT hC hTp hdec
      exact ⟨tr, by rw [hrun]⟩

/-! ## C4 -/

/-- C4, as stated, fails for the empty name: on an empty namespace no listed
deployment is named `""`, and the result of `findDeployment` is the zero
deployment with a nil error, which is also its result when the zero deployment
is listed and found, and whose name equals the requested name. -/
theorem findDeployment_notFound_not_distinct :
    (findDeployment clusterApi "" "prod" ⟨⟨"https://kube", "Y2E=", "dG9r"⟩⟩ Cluster.empty).res
      = .ok (Deployment.zero, none) ∧
    (findDeployment clusterApi "" "prod" ⟨⟨"https://kube", "Y2E=", "dG9r"⟩⟩
        (fun _ => [Deployment.zero])).res
      = .ok (Deployment.zero, none) ∧
    Deployment.zero.ObjectMeta.Name = "" :=
  ⟨rfl, rfl, rfl⟩

/-- C4 (amended): `findDeployment` makes one call, the list call, with namespace
`default` when the given namespace is empty and with the given namespace
otherwise.  When the list succeeds with `l`, it returns with a nil error the
first deployment of `l` whose name is the requested name, and when `l` has none,
the zero deployment; for a non-empty requested name the zero deployment differs
from every deployment of that name. -/
theorem findDeployment_spec {σ : Type} (K : Api σ) (depName ns : String) (c : Clientset)
    (s : σ) :
    (findDeployment K depName ns c s).trace = [.list (if ns = "" then "default" else ns)] ∧
    (findDeployment K depName ns c s).state = s ∧
    ∀ l, K.list c (if ns = "" then "default" else ns) s = .ok l →
      (∃ pre d post, l = pre ++ d :: post ∧ d.ObjectMeta.Name = depName ∧
          (∀ y ∈ pre, y.ObjectMeta.Name ≠ depName) ∧
          (findDeployment K depName ns c s).res = .ok (d, none)) ∨
      ((∀ y ∈ l, y.ObjectMeta.Name ≠ depName) ∧
        (findDeployment K depName ns c s).res = .ok (Deployment.zero, none) ∧
        (depName ≠ "" → ∀ d : Deployment, d.ObjectMeta.Name = depName → d ≠ Deployment.zero)) := by
  refine ⟨?_, ?_, ?_⟩
  · cases hl : K.list c (if ns = "" then "default" else ns) s <;>
      simp [findDeployment, listDeployments, bind, M.bind, pure, M.pure, callRead, logFatal, hl]
  · cases hl : K.list c (if ns = "" then "default" else ns) s <;>
      simp [findDeployment, listDeployments, bind, M.bind, pure, M.pure, callRead, logFatal, hl]
  · intro l hl
    have hres : (findDeployment K depName ns c s).res
        = .ok (findDeployment.loop depName Deployment.zero l, none) := by
      simp [findDeployment, listDeployments, bind, M.bind, pure, M.pure, callRead, logFatal, hl]
    rcases loop_first depName Deployment.zero l with ⟨pre, x, post, h1, h2, h3, h4⟩ | ⟨h1, h2⟩
    · left
      exact ⟨pre, x, post, h1, h2, h3, by rw [hres, h4]⟩
    · right
      refine ⟨h1, by rw [hres, h2], ?_⟩
      intro hne d hd hz
      apply hne
      rw [← hd, hz]
      rfl

/-! ## C5 -/

/-- C5: when the list call of the lookup fails with `e`, the run ends in
`log.Fatal` with the message of `e`, the list call is the only call made to the
cluster (no create, no update), and the cluster is left as it was. -/
theorem exec_list_failure {σ : Type} (L : Lib) (K : Api σ) (p : Plugin) (cs : Clientset)
    (dep : Deployment) (s : σ) (e : GoError)
    (hdec : DecodesTo L p cs dep)
    (hlist : K.list cs (defaultNamespace dep.ObjectMeta.Namespace) s = .error e) :
    (Exec L K p s).res = .error e.Error ∧
    (Exec L K p s).trace.filter Event.isClusterCall
      = [.list (defaultNamespace dep.ObjectMeta.Namespace)] ∧
    (Exec L K p s).state = s := by
  obtain ⟨pre, hpre, -, -, hrun⟩ := Exec_of_decodesTo (σ := σ) L p cs dep hdec
  rw [(hrun K s).1 e hlist]
  refine ⟨rfl, ?_, rfl⟩
  show (pre ++ _).filter _ = _
  rw [filter_clusterCall_append _ _ hpre]
  simp [Event.isClusterCall]

/-- C5, at a concrete run: deployment `app-1` in `prod`, against a cluster whose
calls all fail with `connection refused`. -/
theorem exec_list_failure_witness :
    DecodesTo (okLib ⟨⟨"app-1", "prod"⟩, "spec"⟩) demoPlugin
        ⟨⟨"https://kube", "Y2E=", "dG9r"⟩⟩ ⟨⟨"app-1", "prod"⟩, "spec"⟩ ∧
    (Exec (okLib ⟨⟨"app-1", "prod"⟩, "spec"⟩) (failingApi ⟨"connection refused"⟩) demoPlugin
        Cluster.empty).res = .error "connection refused" ∧
    (Exec (okLib ⟨⟨"app-1", "prod"⟩, "spec"⟩) (failingApi ⟨"connection refused"⟩) demoPlugin
        Cluster.empty).trace.filter Event.isClusterCall = [.list "prod"] :=
  ⟨decodesTo_okLib _,
    (exec_list_failure (okLib ⟨⟨"app-1", "prod"⟩, "spec"⟩) (failingApi ⟨"connection refused"⟩)
      demoPlugin ⟨⟨"https://kube", "Y2E=", "dG9r"⟩⟩ ⟨⟨"app-1", "prod"⟩, "spec"⟩ Cluster.empty
      ⟨"connection refused"⟩ (decodesTo_okLib _) rfl).1,
    (exec_list_failure (okLib ⟨⟨"app-1", "prod"⟩, "spec"⟩) (failingApi ⟨"connection refused"⟩)
      demoPlugin ⟨⟨"https://kube", "Y2E=", "dG9r"⟩⟩ ⟨⟨"app-1", "prod"⟩, "spec"⟩ Cluster.empty
      ⟨"connection refused"⟩ (decodesTo_okLib _) rfl).2.1⟩

/-! ## C6 -/

/-- C6, as stated, fails: for a manifest that decodes to a deployment with an
empty name (and an empty namespace), `Exec` does not stop at the decoding stage;
it makes the list call of `findDeployment` and then the update call with the
nameless deployment. -/
theorem exec_nameless_reaches_cluster :
    (Exec (okLib ⟨⟨"", ""⟩, "spec"⟩) clusterApi demoPlugin Cluster.empty).trace
      = [.decodeString "Y2E=", .decodeString "dG9r",
          .clientConfig ⟨"https://kube", "Y2E=", "dG9r"⟩,
          .newForConfig ⟨"https://kube", "Y2E=", "dG9r"⟩,
          .readFile "deploy.yaml",
          .renderTrim "deploy.yaml"
            { demoPlugin with Config := { demoPlugin.Config with Namespace := "default" } },
          .toJSON "deploy.yaml", .decodeInto "deploy.yaml",
          .list "default", .update "" ⟨⟨"", ""⟩, "spec"⟩] := by
  decide

/-- C6 (amended): `Exec` checks neither the name nor the namespace of the decoded
deployment.  Whenever the manifest decodes to a deployment, with or without a
name and a namespace, the run goes on to the list call of `findDeployment`
(in `default` for an empty namespace); it then ends in `log.Fatal` only when the
list call fails, and returns an error only when the update or the create call
returns it.  An absent namespace does not stop the run before the lookup, which
is then made in `default`. -/
theorem exec_no_identity_check {σ : Type} (L : Lib) (K : Api σ) (p : Plugin) (cs : Clientset)
    (dep : Deployment) (s : σ) (hdec : DecodesTo L p cs dep) :
    Event.list (if dep.ObjectMeta.Namespace = "" then "default" else dep.ObjectMeta.Namespace)
      ∈ (Exec L K p s).trace ∧
    (∀ msg, (Exec L K p s).res = .error msg →
      ∃ e, K.list cs (defaultNamespace dep.ObjectMeta.Namespace) s = .error e ∧
        msg = e.Error) ∧
    (∀ e, (Exec L K p s).res = .ok (some e) →
      (K.update cs dep.ObjectMeta.Namespace dep s).1 = .error e ∨
        (K.create cs dep.ObjectMeta.Namespace dep s).1 = .error e) ∧
    (dep.ObjectMeta.Namespace = "" → Event.list "default" ∈ (Exec L K p s).trace) := by
  have main :
      Event.list
          (if dep.ObjectMeta.Namespace = "" then "default" else dep.ObjectMeta.Namespace)
        ∈ (Exec L K p s).trace ∧
      (∀ msg, (Exec L K p s).res = .error msg →
        ∃ e, K.list cs (defaultNamespace dep.ObjectMeta.Namespace) s = .error e ∧
          msg = e.Error) ∧
      (∀ e, (Exec L K p s).res = .ok (some e) →
        (K.update cs dep.ObjectMeta.Namespace dep s).1 = .error e ∨
          (K.create cs dep.ObjectMeta.Namespace dep s).1 = .error e) := by
    obtain ⟨pre, hpre, -, -, hrun⟩ := Exec_of_decodesTo (σ := σ) L p cs dep hdec
    obtain ⟨herr, hok⟩ := hrun K s
    rw [← defaultNamespace.eq_1]
    cases hl : K.list cs (defaultNamespace dep.ObjectMeta.Namespace) s with
    | error e =>
      rw [herr e hl]
      refine ⟨by simp, ?_, by simp⟩
      intro msg hmsg
      exact ⟨e, rfl, by simpa using hmsg.symm⟩
    | ok l =>
      obtain ⟨hupd, hcre⟩ := hok l hl
      by_cases hn : (findDeployment.loop dep.ObjectMeta.Name Deployment.zero l).ObjectMeta.Name
          = dep.ObjectMeta.Name
      · cases hu : (K.update cs dep.ObjectMeta.Namespace dep s).1 with
        | error e =>
          rw [(hupd hn).1 e hu]
          refine ⟨by simp, by simp, ?_⟩
          intro e2 he2
          left
          simpa using he2
        | ok r =>
          rw [(hupd hn).2 r hu]
          exact ⟨by simp, by simp, by simp⟩
      · cases hu : (K.create cs dep.ObjectMeta.Namespace dep s).1 with
        | error e =>
          rw [(hcre hn).1 e hu]
          refine ⟨by simp, by simp, ?_⟩
          intro e2 he2
          right
          simpa using he2
        | ok r =>
          rw [(hcre hn).2 r hu]
          exact ⟨by simp, by simp, by simp⟩
  refine ⟨main.1, main.2.1, main.2.2, ?_⟩
  intro hns
  have h := main.1
  rw [if_pos hns] at h
  exact h

/-- C6 (amended), at a concrete run: deployment `app-1` without a namespace, on an
empty cluster; the run gets to the lookup, which lists `default`, and the error
it returns is the error of its create call. -/
theorem exec_no_identity_check_witness :
    DecodesTo (okLib ⟨⟨"app-1", ""⟩, "spec"⟩) demoPlugin
        ⟨⟨"https://kube", "Y2E=", "dG9r"⟩⟩ ⟨⟨"app-1", ""⟩, "spec"⟩ ∧
    Event.list "default"
      ∈ (Exec (okLib ⟨⟨"app-1", ""⟩, "spec"⟩) clusterApi demoPlugin Cluster.empty).trace :=
  ⟨decodesTo_okLib _,
    (exec_no_identity_check (okLib ⟨⟨"app-1", ""⟩, "spec"⟩) clusterApi demoPlugin
      ⟨⟨"https://kube", "Y2E=", "dG9r"⟩⟩ ⟨⟨"app-1", ""⟩, "spec"⟩ Cluster.empty
      (decodesTo_okLib _)).2.2.2 rfl⟩

/-! ## C8 -/

/-- The trace of a run from a decoded manifest splits into the calls before the
lookup and the calls of the lookup and the apply stage, which are cluster calls
and log lines only. -/
theorem trace_of_decodesTo {σ : Type} (L : Lib) (K : Api σ) (p : Plugin) (cs : Clientset)
    (dep : Deployment) (s : σ) (hdec : DecodesTo L p cs dep) :
    ∃ pre tl, (Exec L K p s).trace = pre ++ tl ∧
      (∀ t q, Event.renderTrim t q ∈ pre → q =
        { p with Config := { p.Config with Namespace := defaultNamespace p.Config.Namespace } }) ∧
      (∀ e ∈ tl, e.isClusterCall = true ∨ ∃ m, e = Event.printf m) := by
  obtain ⟨pre, -, -, hrender, hrun⟩ := Exec_of_decodesTo (σ := σ) L p cs dep hdec
  obtain ⟨herr, hok⟩ := hrun K s
  cases hl : K.list cs (defaultNamespace dep.ObjectMeta.Namespace) s with
  | error e =>
    exact ⟨pre, _, by rw [herr e hl], hrender, by simp [Event.isClusterCall]⟩
  | ok l =>
    obtain ⟨hupd, hcre⟩ := hok l hl
    by_cases hn : (findDeployment.loop dep.ObjectMeta.Name Deployment.zero l).ObjectMeta.Name
        = dep.ObjectMeta.Name
    · cases hu : (K.update cs dep.ObjectMeta.Namespace dep s).1 with
      | error e =>
        exact ⟨pre, _, by rw [(hupd hn).1 e hu], hrender, by simp [Event.isClusterCall]⟩
      | ok r =>
        exact ⟨pre, _, by rw [(hupd hn).2 r hu], hrender, by simp [Event.isClusterCall]⟩
    · cases hu : (K.create cs dep.ObjectMeta.Namespace dep s).1 with
      | error e =>
        exact ⟨pre, _, by rw [(hcre hn).1 e hu], hrender, by simp [Event.isClusterCall]⟩
      | ok r =>
        exact ⟨pre, _, by rw [(hcre hn).2 r hu], hrender, by simp [Event.isClusterCall]⟩

/-- C8: for a plugin that passes validation, every plugin value `Exec` hands to
template rendering has `Config.Namespace` equal to `default` when the input
namespace is empty and to the input namespace otherwise, and has every other
field (`Repo`, `Build`, `Job`, and `Ca`, `Server`, `Token`, `Template` of
`Config`) equal to the input; and the rendering call is made as soon as the
client is built and the template file is read. -/
theorem exec_render_plugin {σ : Type} (L : Lib) (K : Api σ) (p : Plugin) (s : σ)
    (hS : p.Config.Server ≠ "") (hT : p.Config.Token ≠ "") (hC : p.Config.Ca ≠ "")
    (hTp : p.Config.Template ≠ "") :
    (∀ t q, Event.renderTrim t q ∈ (Exec L K p s).trace →
      q.Config.Namespace
          = (if p.Config.Namespace = "" then "default" else p.Config.Namespace) ∧
        q.Repo = p.Repo ∧ q.Build = p.Build ∧ q.Job = p.Job ∧
        q.Config.Ca = p.Config.Ca ∧ q.Config.Server = p.Config.Server ∧
        q.Config.Token = p.Config.Token ∧ q.Config.Template = p.Config.Template) ∧
    (∀ ca token cfg cs t,
      L.decodeString p.Config.Ca = .ok ca → L.decodeString p.Config.Token = .ok token →
      L.clientConfig ⟨p.Config.Server, ca, token⟩ = .ok cfg → L.newForConfig cfg = .ok cs →
      L.readFile p.Config.Template = .ok t →
      ∃ q, Event.renderTrim t q ∈ (Exec L K p s).trace) := by
  constructor
  · intro t q hq
    have hqeq : q = { p with Config := { p.Config with
        Namespace := defaultNamespace p.Config.Namespace } } := by
      by_cases hdec : ∃ cs dep, DecodesTo L p cs dep
      · obtain ⟨cs, dep, hdec⟩ := hdec
        obtain ⟨pre, tl, htr, hrender, htl⟩ := trace_of_decodesTo L K p cs dep s hdec
        rw [htr] at hq
        rcases List.mem_append.mp hq with hq | hq
        · exact hrender t q hq
        · rcases htl _ hq with h | ⟨m, h⟩
          · simp [Event.isClusterCall] at h
          · simp at h
      · obtain ⟨tr, r, hrun, -, hrender, -⟩ :=
          Exec_of_not_decodesTo L K p s hS hT hC hTp hdec
        rw [hrun] at hq
        rcases List.mem_cons.mp hq with hq | hq
        · simp at hq
        · exact hrender t q hq
    subst hqeq
    exact ⟨rfl, rfl, rfl, rfl, rfl, rfl, rfl, rfl⟩
  · intro ca token cfg cs t h1 h2 h3 h4 h5
    refine ⟨{ p with Config := { p.Config with
        Namespace := defaultNamespace p.Config.Namespace } }, ?_⟩
    simp [Exec, createKubeClient, openAndSub, bind, M.bind, pure, M.pure, call, logFatal,
      defaulted_eq, *]

/-- C8, at a concrete run: the demo plugin, whose namespace is empty, is handed
to rendering with namespace `default`. -/
theorem exec_render_plugin_witness :
    demoPlugin.Config.Namespace = "" ∧
    ∀ t q, Event.renderTrim t q
        ∈ (Exec (okLib ⟨⟨"app-1", "prod"⟩, "spec"⟩) clusterApi demoPlugin Cluster.empty).trace →
      q.Config.Namespace = "default" ∧ q.Repo = demoPlugin.Repo ∧ q.Build = demoPlugin.Build ∧
        q.Job = demoPlugin.Job :=
  ⟨rfl, fun t q hq =>
    have h := (exec_render_plugin (okLib ⟨⟨"app-1", "prod"⟩, "spec"⟩) clusterApi demoPlugin
      Cluster.empty (by decide) (by decide) (by decide) (by decide)).1 t q hq
    ⟨h.1, h.2.1, h.2.2.1, h.2.2.2.1⟩⟩

/-! ## C9 -/

/-- C9, as stated, fails: with the `Ca` setting `!!!`, which is not valid
base64, the run does not return the error of the decoding; it ends in
`log.Fatal` with the message of that error, after the one decoding call. -/
theorem exec_bad_ca_is_fatal :
    (base64Lib ⟨⟨"app-1", "prod"⟩, "spec"⟩ "!!!").decodeString badCaPlugin.Config.Ca
      = .error ⟨"illegal base64 data at input byte 0"⟩ ∧
    (Exec (base64Lib ⟨⟨"app-1", "prod"⟩, "spec"⟩ "!!!") clusterApi badCaPlugin
        Cluster.empty).trace = [.decodeString "!!!"] ∧
    (Exec (base64Lib ⟨⟨"app-1", "prod"⟩, "spec"⟩ "!!!") clusterApi badCaPlugin
        Cluster.empty).res = .error "illegal base64 data at input byte 0" :=
  ⟨rfl, by decide, rfl⟩

/-- C9 (amended): for a plugin that passes validation and whose client cannot be
built, `Exec` ends in `log.Fatal` with the message of the failure (it does not
return the error), having made no call to the cluster.  In particular `Ca` is
decoded before `Token`: a `Ca` that is not valid base64 is fatal after that one
decoding, and a `Token` that is not valid base64 is fatal after the two. -/
theorem exec_client_failure_fatal {σ : Type} (L : Lib) (K : Api σ) (p : Plugin) (s : σ)
    (hS : p.Config.Server ≠ "") (hT : p.Config.Token ≠ "") (hC : p.Config.Ca ≠ "")
    (hTp : p.Config.Template ≠ "")
    (hfail : ∀ cs, (createKubeClient L p s).res ≠ .ok (.ok cs)) :
    (∃ msg, (Exec L K p s).res = .error msg ∧
      ((createKubeClient L p s).res = .error msg ∨
        ∃ e, (createKubeClient L p s).res = .ok (.error e) ∧ msg = e.Error)) ∧
    (∀ e ∈ (Exec L K p s).trace, e.isClusterCall = false) ∧
    (Exec L K p s).state = s ∧
    (∀ e, L.decodeString p.Config.Ca = .error e →
      Exec L K p s = ⟨[.decodeString p.Config.Ca], s, .error e.Error⟩) ∧
    (∀ ca e, L.decodeString p.Config.Ca = .ok ca → L.decodeString p.Config.Token = .error e →
      Exec L K p s
        = ⟨[.decodeString p.Config.Ca, .decodeString p.Config.Token], s, .error e.Error⟩) := by
  cases h1 : L.decodeString p.Config.Ca with
  | error e =>
    simp [Exec, createKubeClient, bind, M.bind, pure, M.pure, call, logFatal, defaulted_eq,
      Event.isClusterCall, *]
  | ok ca =>
    cases h2 : L.decodeString p.Config.Token with
    | error e =>
      simp [Exec, createKubeClient, bind, M.bind, pure, M.pure, call, logFatal, defaulted_eq,
        Event.isClusterCall, *]
    | ok token =>
      cases h3 : L.clientConfig ⟨p.Config.Server, ca, token⟩ with
      | error e =>
        simp [Exec, createKubeClient, bind, M.bind, pure, M.pure, call, logFatal, defaulted_eq,
          Event.isClusterCall, *]
      | ok cfg =>
        cases h4 : L.newForConfig cfg with
        | error e =>
          simp [Exec, createKubeClient, bind, M.bind, pure, M.pure, call, logFatal,
            defaulted_eq, Event.isClusterCall, *]
        | ok cs =>
          exfalso
          apply hfail cs
          simp [createKubeClient, bind, M.bind, pure, M.pure, call, logFatal, *]

/-- C9 (amended), at a concrete run: the demo plugin with the `Token` setting
`!!!`, which is not valid base64; `Ca` is decoded first, then `Token`, and the
run ends in `log.Fatal`. -/
theorem exec_client_failure_fatal_witness :
    (Exec (base64Lib ⟨⟨"app-1", "prod"⟩, "spec"⟩ "!!!") clusterApi badTokenPlugin
        Cluster.empty)
      = ⟨[.decodeString "Y2E=", .decodeString "!!!"], Cluster.empty,
          .error "illegal base64 data at input byte 0"⟩ :=
  (exec_client_failure_fatal (base64Lib ⟨⟨"app-1", "prod"⟩, "spec"⟩ "!!!") clusterApi
    badTokenPlugin Cluster.empty (by decide) (by decide) (by decide) (by decide)
    (fun cs h => by simp [createKubeClient, bind, M.bind, pure, M.pure, call, base64Lib,
      okLib, badTokenPlugin, demoPlugin] at h)).2.2.2.2 "Y2E=" ⟨"illegal base64 data at input byte 0"⟩
    rfl rfl

/-! ## C7 -/

/-- A run that calls the cluster is a run from a decoded manifest. -/
theorem decodesTo_of_clusterCall {σ : Type} (L : Lib) (K : Api σ) (p : Plugin) (s : σ)
    (e : Event) (hmem : e ∈ (Exec L K p s).trace) (he : e.isClusterCall = true) :
    ∃ cs dep, DecodesTo L p cs dep := by
  by_contra hno
  by_cases hS : p.Config.Server = ""
  · simp [Exec, logFatal, hS] at hmem
  by_cases hT : p.Config.Token = ""
  · simp [Exec, logFatal, hS, hT] at hmem
  by_cases hC : p.Config.Ca = ""
  · simp [Exec, logFatal, hS, hT, hC] at hmem
  by_cases hTp : p.Config.Template = ""
  · by_cases hns : p.Config.Namespace = "" <;>
      simp [Exec, logFatal, hS, hT, hC, hTp, hns] at hmem
  obtain ⟨tr, r, hrun, htr, -, -⟩ := Exec_of_not_decodesTo L K p s hS hT hC hTp hno
  rw [hrun] at hmem
  rcases List.mem_cons.mp hmem with h | h
  · rw [h] at he
    simp [Event.isClusterCall] at he
  · rw [(htr _ h).1] at he
    simp at he

/-- Two runs in a row on the cluster model, for a decoded deployment with a
non-empty name and a non-empty namespace that the cluster does not list yet: the
first run lists the namespace, creates the deployment and succeeds; the second
run, on the cluster the first one left, lists the same namespace, makes the
update call and succeeds. -/
theorem exec_twice_updates_of_namespace (L : Lib) (p : Plugin) (cs : Clientset)
    (dep : Deployment) (c : Cluster)
    (hname : dep.ObjectMeta.Name ≠ "") (hns : dep.ObjectMeta.Namespace ≠ "")
    (hdec : DecodesTo L p cs dep)
    (hnew : ¬ ∃ d ∈ c dep.ObjectMeta.Namespace, d.ObjectMeta.Name = dep.ObjectMeta.Name) :
    (Exec L clusterApi p c).trace.filter Event.isClusterCall
      = [.list dep.ObjectMeta.Namespace, .create dep.ObjectMeta.Namespace dep] ∧
    (Exec L clusterApi p c).res = .ok none ∧
    (Exec L clusterApi p (Exec L clusterApi p c).state).trace.filter Event.isClusterCall
      = [.list dep.ObjectMeta.Namespace, .update dep.ObjectMeta.Namespace dep] ∧
    (Exec L clusterApi p (Exec L clusterApi p c).state).res = .ok none := by
  have hd : defaultNamespace dep.ObjectMeta.Namespace = dep.ObjectMeta.Namespace := by
    simp [defaultNamespace, hns]
  obtain ⟨pre, -, -, -, hrun⟩ := Exec_of_decodesTo (σ := Cluster) L p cs dep hdec
  have h1 := clusterCalls_of_decodesTo L clusterApi p cs dep c (c dep.ObjectMeta.Namespace)
    hdec (by rw [hd]; rfl)
  rw [if_neg (by simp only [not_or]; exact ⟨hnew, hname⟩), hd] at h1
  have hloop : (findDeployment.loop dep.ObjectMeta.Name Deployment.zero
      (c dep.ObjectMeta.Namespace)).ObjectMeta.Name ≠ dep.ObjectMeta.Name := by
    intro h
    rcases (loop_name_eq _ _ _).mp h with h | h
    · exact hnew h
    · exact hname (by rw [← h]; rfl)
  have hcreate : clusterApi.create cs dep.ObjectMeta.Namespace dep c
      = (.ok dep, fun n => if n = dep.ObjectMeta.Namespace then c n ++ [dep] else c n) := by
    simp [clusterApi, hns]
  have hfirst := (((hrun clusterApi c).2 (c dep.ObjectMeta.Namespace) (by rw [hd]; rfl)).2
    hloop).2 dep (by rw [hcreate])
  have hst : (Exec L clusterApi p c).state
      = fun n => if n = dep.ObjectMeta.Namespace then c n ++ [dep] else c n := by
    rw [hfirst, hcreate]
  have hres : (Exec L clusterApi p c).res = .ok none := by
    rw [hfirst]
  have hlist2 : clusterApi.list cs (defaultNamespace dep.ObjectMeta.Namespace)
      (Exec L clusterApi p c).state = .ok (c dep.ObjectMeta.Namespace ++ [dep]) := by
    rw [hd, hst]
    simp [clusterApi]
  have h2 := clusterCalls_of_decodesTo L clusterApi p cs dep (Exec L clusterApi p c).state
    (c dep.ObjectMeta.Namespace ++ [dep]) hdec hlist2
  rw [if_pos (Or.inl ⟨dep, by simp, rfl⟩), hd] at h2
  have hloop2 : (findDeployment.loop dep.ObjectMeta.Name Deployment.zero
      (c dep.ObjectMeta.Namespace ++ [dep])).ObjectMeta.Name = dep.ObjectMeta.Name :=
    (loop_name_eq _ _ _).mpr (Or.inl ⟨dep, by simp, rfl⟩)
  have hupdate : (clusterApi.update cs dep.ObjectMeta.Namespace dep
      (Exec L clusterApi p c).state).1 = .ok dep := by
    rw [hst]
    simp only [clusterApi, hns, if_false, if_true, List.any_eq_true, decide_eq_true_eq]
    rw [if_pos ⟨dep, by simp, rfl⟩]
  have hsecond := (((hrun clusterApi (Exec L clusterApi p c).state).2
    (c dep.ObjectMeta.Namespace ++ [dep]) hlist2).1 hloop2).2 dep hupdate
  refine ⟨h1, hres, h2, ?_⟩
  rw [hsecond]

/-- C7: on the cluster model (list gives the deployments of the namespace, create
adds the deployment to the namespace it is called with, and the client refuses
the empty namespace), whenever a first run of `Exec` succeeds and has made a
create call, a second run with the same inputs against the cluster the first
run left makes the list call and the update call for the same namespace and
body, makes no create call, and succeeds. -/
theorem exec_second_run_updates (L : Lib) (p : Plugin) (c : Cluster) (ns : String)
    (b : Deployment)
    (hok : (Exec L clusterApi p c).res = .ok none)
    (hcreate : Event.create ns b ∈ (Exec L clusterApi p c).trace) :
    (Exec L clusterApi p (Exec L clusterApi p c).state).trace.filter Event.isClusterCall
      = [.list ns, .update ns b] ∧
    (∀ n d, Event.create n d ∉ (Exec L clusterApi p (Exec L clusterApi p c).state).trace) ∧
    (Exec L clusterApi p (Exec L clusterApi p c).state).res = .ok none := by
  obtain ⟨cs, dep, hdec⟩ := decodesTo_of_clusterCall L clusterApi p c _ hcreate rfl
  have hcalls := clusterCalls_of_decodesTo L clusterApi p cs dep c
    (c (defaultNamespace dep.ObjectMeta.Namespace)) hdec rfl
  have hfilt : Event.create ns b ∈ (Exec L clusterApi p c).trace.filter Event.isClusterCall :=
    List.mem_filter.mpr ⟨hcreate, rfl⟩
  rw [hcalls] at hfilt
  by_cases hcond : (∃ d ∈ c (defaultNamespace dep.ObjectMeta.Namespace),
      d.ObjectMeta.Name = dep.ObjectMeta.Name) ∨ dep.ObjectMeta.Name = ""
  · rw [if_pos hcond] at hfilt
    simp at hfilt
  rw [if_neg hcond] at hfilt
  simp at hfilt
  obtain ⟨rfl, rfl⟩ := hfilt
  simp only [not_or] at hcond
  obtain ⟨hnew, hname⟩ := hcond
  have hns : b.ObjectMeta.Namespace ≠ "" := by
    intro hns
    obtain ⟨pre, -, -, -, hrun⟩ := Exec_of_decodesTo (σ := Cluster) L p cs b hdec
    have hloop : (findDeployment.loop b.ObjectMeta.Name Deployment.zero
        (c (defaultNamespace b.ObjectMeta.Namespace))).ObjectMeta.Name ≠ b.ObjectMeta.Name := by
      intro h
      rcases (loop_name_eq _ _ _).mp h with h | h
      · exact hnew h
      · exact hname (by rw [← h]; rfl)
    have hfail := (((hrun clusterApi c).2 _ rfl).2 hloop).1
      ⟨"an empty namespace may not be set during creation"⟩ (by simp [clusterApi, hns])
    rw [hfail] at hok
    simp at hok
  have hd : defaultNamespace b.ObjectMeta.Namespace = b.ObjectMeta.Namespace := by
    simp [defaultNamespace, hns]
  rw [hd] at hnew
  obtain ⟨-, -, h2, hres2⟩ := exec_twice_updates_of_namespace L p cs b c hname hns hdec hnew
  refine ⟨h2, ?_, hres2⟩
  intro n d hmem
  have hf : Event.create n d
      ∈ (Exec L clusterApi p (Exec L clusterApi p c).state).trace.filter Event.isClusterCall :=
    List.mem_filter.mpr ⟨hmem, rfl⟩
  rw [h2] at hf
  simp at hf

/-- C7, at a concrete pair of runs: deployment `app-1` in `prod`, starting from
the empty cluster; the first run succeeds by the create branch, the second run
lists `prod` and updates. -/
theorem exec_second_run_updates_witness :
    (Exec (okLib ⟨⟨"app-1", "prod"⟩, "spec"⟩) clusterApi demoPlugin Cluster.empty).res
      = .ok none ∧
    Event.create "prod" ⟨⟨"app-1", "prod"⟩, "spec"⟩
      ∈ (Exec (okLib ⟨⟨"app-1", "prod"⟩, "spec"⟩) clusterApi demoPlugin Cluster.empty).trace ∧
    (Exec (okLib ⟨⟨"app-1", "prod"⟩, "spec"⟩) clusterApi demoPlugin
        (Exec (okLib ⟨⟨"app-1", "prod"⟩, "spec"⟩) clusterApi demoPlugin
          Cluster.empty).state).trace.filter Event.isClusterCall
      = [.list "prod", .update "prod" ⟨⟨"app-1", "prod"⟩, "spec"⟩] :=
  ⟨rfl, by decide,
    (exec_second_run_updates (okLib ⟨⟨"app-1", "prod"⟩, "spec"⟩) demoPlugin Cluster.empty
      "prod" ⟨⟨"app-1", "prod"⟩, "spec"⟩ rfl (by decide)).1⟩

/-! ## C10 -/

/-- C10, at a manifest that decodes to deployment `app-1` without a namespace:
the lookup lists the namespace `default`, and the call that follows is made
with the namespace `""`, both when the lookup finds `app-1` (update) and when it
does not (create). -/
theorem exec_lookup_and_apply_namespaces_differ :
    (Exec (okLib ⟨⟨"app-1", ""⟩, "spec"⟩) clusterApi demoPlugin
        (fun n => if n = "default" then [⟨⟨"app-1", "default"⟩, "old"⟩] else [])).trace.filter
        Event.isClusterCall
      = [.list "default", .update "" ⟨⟨"app-1", ""⟩, "spec"⟩] ∧
    (Exec (okLib ⟨⟨"app-1", ""⟩, "spec"⟩) clusterApi demoPlugin
        (fun _ => [])).trace.filter Event.isClusterCall
      = [.list "default", .create "" ⟨⟨"app-1", ""⟩, "spec"⟩] := by
  refine ⟨by decide, by decide⟩

end DroneKube
